import Mathlib

/-!
Shallow embedding of the workload-operator repository (camilamacedo86/workload-operator).

The embedded code consists of:
* the status condition model (`api/argocd/v1beta1` types together with the
  `k8s.io/apimachinery/pkg/api/meta.SetStatusCondition` helper the controller calls),
* the ArgoCD registration API client (`internal/argocd/argocd.go`), and
* the reconciliation engine (`RegisterReconciler.Reconcile` and its helpers).

Kubernetes store interactions (Get/Create/Update on objects at the request key and on
the ArgoCD credential secret) are modelled by explicit state passing over a `World`
record holding the objects at the single key under reconciliation plus the credential
secret at the configured coordinates.  The HTTP response that the remote ArgoCD
endpoint would give to the register POST, and the verdict of the external kubeconfig
parser (`clientcmd.Load`), are inputs of the world, since they are produced by
external collaborators.
-/

namespace WorkloadOperator

/-! ## Status conditions (api/argocd/v1beta1 + k8s.io/apimachinery meta) -/

/-- Embedding of `metav1.Condition`: type, status (one of the strings
"True"/"False"/"Unknown"), reason, message, lastTransitionTime and observedGeneration.
Time is a `Nat`; the Go zero `metav1.Time` is modelled by `0`. -/
structure Condition where
  type : String
  status : String
  reason : String
  message : String
  lastTransitionTime : Nat
  observedGeneration : Int
deriving Repr, DecidableEq

/-- Condition type constants of the repository (internal/status). -/
def ConditionAvailable : String := "Available"

/-- Degraded condition type from internal/status. -/
def ConditionDegraded : String := "Degraded"

/-- Progressing condition type from internal/status. -/
def ConditionProgressing : String := "Progressing"

/-- Embedding of `meta.FindStatusCondition`: first condition of the given type. -/
def findStatusCondition : List Condition → String → Option Condition
  | [], _ => none
  | c :: rest, t => if c.type = t then some c else findStatusCondition rest t

/-- Helper mirroring the in-place mutation through the pointer returned by
`meta.FindStatusCondition`: rewrite the first condition of the given type. -/
def updateFirstCondition : List Condition → String → (Condition → Condition) → List Condition
  | [], _, _ => []
  | c :: rest, t, f => if c.type = t then f c :: rest else c :: updateFirstCondition rest t f

/-- Update applied by `meta.SetStatusCondition` to the existing condition of the same
type (the body of its found-branch): `lastTransitionTime` is touched only when the
status changes, while reason, message and observedGeneration are always overwritten. -/
def applyCondition (newCondition : Condition) (now : Nat)
    (existingCondition : Condition) : Condition :=
  let afterStatus :=
    if existingCondition.status ≠ newCondition.status then
      { existingCondition with
          status := newCondition.status
          lastTransitionTime :=
            if newCondition.lastTransitionTime ≠ 0 then
              newCondition.lastTransitionTime
            else now }
    else existingCondition
  { afterStatus with
      reason := newCondition.reason
      message := newCondition.message
      observedGeneration := newCondition.observedGeneration }

/-- Embedding of `k8s.io/apimachinery/pkg/api/meta.SetStatusCondition` (the helper the
controller uses for every condition write).  If no condition of the type exists the new
condition is appended, stamping `lastTransitionTime` with the current time when it is
zero.  Otherwise the existing entry is updated in place via `applyCondition`.  `now`
stands for `time.Now()`. -/
def setStatusCondition (conditions : List Condition) (newCondition : Condition)
    (now : Nat) : List Condition :=
  match findStatusCondition conditions newCondition.type with
  | none =>
      let withTime :=
        if newCondition.lastTransitionTime = 0 then
          { newCondition with lastTransitionTime := now }
        else newCondition
      conditions ++ [withTime]
  | some _ =>
      updateFirstCondition conditions newCondition.type (applyCondition newCondition now)

/-- Conditions the controller passes to `meta.SetStatusCondition` always carry a zero
`LastTransitionTime` and zero `ObservedGeneration`; only type, status, reason and
message are filled in. -/
def mkCondition (t st reason msg : String) : Condition :=
  { type := t, status := st, reason := reason, message := msg
    lastTransitionTime := 0, observedGeneration := 0 }

/-! ## Base64 (encoding/base64 StdEncoding.DecodeString) -/

/-- Value of one character of the standard base64 alphabet, `none` for characters
outside the alphabet (the corrupt-input case of `base64.StdEncoding.DecodeString`). -/
def b64Val (c : Char) : Option Nat :=
  if 'A' ≤ c ∧ c ≤ 'Z' then some (c.toNat - 65)
  else if 'a' ≤ c ∧ c ≤ 'z' then some (c.toNat - 97 + 26)
  else if '0' ≤ c ∧ c ≤ '9' then some (c.toNat - 48 + 52)
  else if c = '+' then some 62
  else if c = '/' then some 63
  else none

/-- Decode base64 input four characters at a time into bytes; `=` padding is accepted
only in the final quantum, mirroring `base64.StdEncoding.DecodeString`. -/
def base64DecodeQuanta : List Char → Option (List Nat)
  | [] => some []
  | a :: b :: c :: d :: rest =>
    match b64Val a, b64Val b with
    | some va, some vb =>
      if c = '=' then
        if d = '=' ∧ rest = [] then some [va * 4 + vb / 16] else none
      else
        match b64Val c with
        | some vc =>
          if d = '=' then
            if rest = [] then some [va * 4 + vb / 16, (vb % 16) * 16 + vc / 4] else none
          else
            match b64Val d, base64DecodeQuanta rest with
            | some vd, some bs =>
              some ([va * 4 + vb / 16, (vb % 16) * 16 + vc / 4, (vc % 4) * 64 + vd] ++ bs)
            | _, _ => none
        | none => none
    | _, _ => none
  | _ => none

/-- Embedding of `base64.StdEncoding.DecodeString`; bytes are rendered as a `String`
(the Go code converts the decoded bytes to a string immediately). -/
def base64Decode (s : String) : Option String :=
  (base64DecodeQuanta s.data).map (fun bs => String.mk (bs.map Char.ofNat))

/-! ## Registration API client (internal/argocd/argocd.go) -/

/-- Default ArgoCD credential secret name (internal/argocd/argocd.go). -/
def defaultSecretName : String := "argocd-secret"

/-- Default namespace where ArgoCD is deployed (internal/argocd/argocd.go). -/
def defaultNamespace : String := "argocd"

/-- Default ArgoCD API endpoint (internal/argocd/argocd.go). -/
def defaultArgoAPIEndpoint : String := "https://argocd-api.example.com"

/-- A Kubernetes secret: its `Data` map, keys to byte strings. -/
structure Secret where
  data : List (String × String)
deriving Repr, DecidableEq

/-- Lookup of a key in a secret's `Data` map. -/
def lookupData : List (String × String) → String → Option String
  | [], _ => none
  | (k, v) :: rest, key => if k = key then some v else lookupData rest key

/-- A `clusterapiv1.Cluster`: identity plus the control-plane endpoint used by
`NewAPIManagerWithCluster` (`Spec.ControlPlaneEndpoint.Host`/`.Port`, an int32). -/
structure Cluster where
  name : String
  ns : String
  host : String
  port : Int
deriving Repr, DecidableEq

/-- The `argocd.APIManager` struct (client/context/logger fields are ambient in the
embedding and omitted). -/
structure APIManager where
  Token : String
  Server : String
  Name : String
  KubeConfig : String
  Endpoint : String
deriving Repr, DecidableEq

/-- Embedding of `(*APIManager).setBareToken`.  The namespace/name environment
variables only select which secret is read; the world carries the secret found at the
configured coordinates as `argoSecret`, so the function takes it directly.  A `none`
secret corresponds to the store's NotFound error, wrapped as in the source. -/
def setBareToken (argoSecret : Option Secret) : Except String String :=
  match argoSecret with
  | none => .error "error fetching secret: secret not found"
  | some secret =>
    match lookupData secret.data "admin.password" with
    | none => .error "admin.password not found in secret"
    | some tokenBase64 =>
      match base64Decode tokenBase64 with
      | none => .error "illegal base64 data"
      | some token => .ok token

/-- Embedding of `argocd.NewAPIManagerWithCluster`.  `endpointEnv` is the value of the
`ARGOAPI_ENDPOINT` environment variable when set.  As in the source, the struct is
built first (with an empty token) and `setBareToken` may then fail: both the manager
and the error are returned. -/
def NewAPIManagerWithCluster (endpointEnv : Option String) (argoSecret : Option Secret)
    (clusterAPI : Cluster) (kubeConfig : String) : APIManager × Option String :=
  let argoAPIEndpoint := endpointEnv.getD defaultArgoAPIEndpoint
  let newArgo : APIManager :=
    { Token := ""
      Server := clusterAPI.host ++ ":" ++ toString clusterAPI.port
      Name := clusterAPI.name
      KubeConfig := kubeConfig
      Endpoint := argoAPIEndpoint }
  match setBareToken argoSecret with
  | .ok token => ({ newArgo with Token := token }, none)
  | .error e => (newArgo, some e)

/-- JSON value shape used for the register payload: strings, byte strings (marshalled
by Go as base64 strings) and objects. -/
inductive JVal where
  | str (s : String)
  | bytes (s : String)
  | obj (fields : List (String × JVal))

/-- The `argocdCluster` map marshalled by `RegisterCluster`, in source order. -/
def argocdClusterPayload (a : APIManager) : List (String × JVal) :=
  [("server", .str a.Server),
   ("name", .str a.Name),
   ("kubeconfig", .bytes a.KubeConfig),
   ("config", .obj [("bearerToken", .str a.Token)])]

/-- The HTTP request `RegisterCluster` builds and sends. -/
structure HttpRequest where
  method : String
  url : String
  headers : List (String × String)
  timeoutSeconds : Nat
  body : List (String × JVal)

/-- Request constructed by `RegisterCluster`: POST to `{Endpoint}/api/v1/clusters`
with JSON content type, bearer authorization, a 30 second client timeout and the
`argocdCluster` payload as body. -/
def registerRequest (a : APIManager) : HttpRequest :=
  { method := "POST"
    url := a.Endpoint ++ "/api/v1/clusters"
    headers := [("Content-Type", "application/json"),
                ("Authorization", "Bearer " ++ a.Token)]
    timeoutSeconds := 30
    body := argocdClusterPayload a }

/-- Outcome of the remote HTTP call: a transport error from `client.Do`, or a response
with numeric status code and the Go `resp.Status` line (code plus status text, for
example "500 Internal Server Error"). -/
inductive HttpResult where
  | transportError (msg : String)
  | response (status : Nat) (statusLine : String)
deriving Repr, DecidableEq

/-- Embedding of `(*APIManager).RegisterCluster`.  `kubeconfigValid` is the verdict of
the external `clientcmd.Load` parser on `a.KubeConfig`; `http` is the behaviour of the
remote endpoint for the sent request.  Returns the error message, or `none` on
success (HTTP 200). -/
def RegisterCluster (_a : APIManager) (kubeconfigValid : Bool) (http : HttpResult) :
    Option String :=
  if kubeconfigValid = false then some "error loading kubeconfig: invalid kubeconfig"
  else
    match http with
    | .transportError msg => some ("error sending request: " ++ msg)
    | .response status statusLine =>
      if status ≠ 200 then some ("error registering cluster, status: " ++ statusLine)
      else none

/-- Embedding of `(*APIManager).IsClusterRegistered`: the check is a stub that always
answers `(false, nil)`. -/
def IsClusterRegistered (_a : APIManager) : Bool × Option String :=
  (false, none)

/-- Embedding of `(*APIManager).CheckRegistration`: stubbed, always succeeds. -/
def CheckRegistration (_a : APIManager) : Option String :=
  none

/-- Embedding of `(*APIManager).UnRegisterCluster`: stubbed no-op success. -/
def UnRegisterCluster (_a : APIManager) : Option String :=
  none

/-! ## Reconciliation engine (RegisterReconciler) -/

/-- Owner reference set by `controllerutil.SetOwnerReference` (kind and name; owner
references are namespace-local so no namespace field). -/
structure OwnerReference where
  kind : String
  name : String
deriving Repr, DecidableEq

/-- The `argocdv1beta1.Register` custom resource: identity, deletion timestamp,
finalizers, owner references and the status conditions.  The `spec.argoCDEndpoint`
field is never read by the reconciliation logic and is omitted. -/
structure Register where
  name : String
  ns : String
  deletionTimestamp : Option Nat
  finalizers : List String
  ownerReferences : List OwnerReference
  conditions : List Condition
deriving Repr, DecidableEq

/-- The finalizer constant of the controller. -/
def registerCRFinalizer : String := "argocd.register.workload.com/finalizer"

/-- Embedding of `controllerutil.ContainsFinalizer`. -/
def containsFinalizer (r : Register) (f : String) : Bool :=
  decide (f ∈ r.finalizers)

/-- Embedding of `controllerutil.RemoveFinalizer`: drops every occurrence and reports
whether anything was removed. -/
def removeFinalizer (fs : List String) (f : String) : List String × Bool :=
  (fs.filter (fun x => decide (x ≠ f)), decide (f ∈ fs))

/-- Embedding of `generateRegisterCR`: a fresh Register named after the Cluster, with
an owner reference to it (via `controllerutil.SetOwnerReference`), no finalizers and
no conditions. -/
def generateRegisterCR (clusterAPI : Cluster) : Register :=
  { name := clusterAPI.name
    ns := clusterAPI.ns
    deletionTimestamp := none
    finalizers := []
    ownerReferences := [{ kind := "Cluster", name := clusterAPI.name }]
    conditions := [] }

/-- The zero `argocdv1beta1.Register{}` value the reconciler declares before any Get. -/
def emptyRegister : Register :=
  { name := "", ns := "", deletionTimestamp := none, finalizers := []
    ownerReferences := [], conditions := [] }

/-- The zero `clusterapiv1.Cluster{}` value used when the Cluster CR is not found. -/
def zeroCluster : Cluster :=
  { name := "", ns := "", host := "", port := 0 }

/-- Embedding of `createRegisterCR`.  Returns the object passed to `Client.Create`
(the generated Register) together with the in-memory `RegisterCR` argument after the
`meta.SetStatusCondition` call: the source sets the Progressing condition on the
in-memory object, not on the created one, and the caller re-fetches right after. -/
def createRegisterCR (clusterAPI : Cluster) (RegisterCR : Register) (now : Nat) :
    Register × Register :=
  let newRegister := generateRegisterCR clusterAPI
  let regMem :=
    { RegisterCR with
        conditions := setStatusCondition RegisterCR.conditions
          (mkCondition ConditionProgressing "True" "Creating Register"
            "Preparing to Register Cluster with ArgoCD") now }
  (newRegister, regMem)

/-- State seen by one `Reconcile` invocation: the Cluster CR, Register CR and
kubeconfig secret at the request key, the ArgoCD credential secret at the configured
coordinates, the `ARGOAPI_ENDPOINT` environment value, the external kubeconfig-parser
verdict, the remote endpoint's behaviour for the register POST, and the current time
(`time.Now()` during the invocation). -/
structure World where
  cluster : Option Cluster
  register : Option Register
  reqSecret : Option Secret
  argoSecret : Option Secret
  endpointEnv : Option String
  kubeconfigValid : Bool
  http : HttpResult
  now : Nat
deriving Repr, DecidableEq

/-- Write a condition onto a Register and persist it, the composite of
`meta.SetStatusCondition` on its conditions and a successful `Status().Update`. -/
def setCondOn (reg : Register) (c : Condition) (now : Nat) : Register :=
  { reg with conditions := setStatusCondition reg.conditions c now }

/-- Outcome of one `Reconcile` call: the resulting store state, the returned error,
and whether the remote register/unregister operations were invoked. -/
structure ReconcileResult where
  world : World
  err : Option String
  registerAttempted : Bool
  unregisterAttempted : Bool
deriving Repr, DecidableEq

/-- Embedding of `getClusterKubeConfigFromSecret`: fetch the secret at the request
key and extract its `kubeconfig` field. -/
def getClusterKubeConfigFromSecret (w : World) : Except String String :=
  match w.reqSecret with
  | none => .error "secret not found"
  | some secret =>
    match lookupData secret.data "kubeconfig" with
    | none => .error "kubeconfig not found in secret"
    | some kubeconfig => .ok kubeconfig

/-- Embedding of `handleIntegrationWithArgoCDAPI`.  On a kubeconfig-secret failure the
Degraded condition is written and the error is returned.  When
`NewAPIManagerWithCluster` fails, the Degraded condition is written but the source
then falls through to `return argoCDAPIManager, nil`: the construction error is
swallowed and the (incomplete) manager is handed back with a nil error. -/
def handleIntegrationWithArgoCDAPI (w : World) (clusterAPI : Cluster) :
    World × Option APIManager × Option String :=
  match getClusterKubeConfigFromSecret w with
  | .error e =>
    match w.register with
    | none => (w, none, some "register not found")
    | some reg =>
      let reg' := setCondOn reg
        (mkCondition ConditionDegraded "True" "Error"
          ("Unable to gathering kubeConfig: " ++ e)) w.now
      ({ w with register := some reg' }, none, some e)
  | .ok kubeconfigContent =>
    match NewAPIManagerWithCluster w.endpointEnv w.argoSecret clusterAPI kubeconfigContent with
    | (argoCDAPIManager, some e) =>
      match w.register with
      | none => (w, none, some "register not found")
      | some reg =>
        let reg' := setCondOn reg
          (mkCondition ConditionDegraded "True" "Error"
            ("Unable to gathering pre-requirements to connect with ArgoCD: " ++ e)) w.now
        ({ w with register := some reg' }, some argoCDAPIManager, none)
    | (argoCDAPIManager, none) => (w, some argoCDAPIManager, none)

/-- Embedding of `handleClusterRegistration`.  `IsClusterRegistered` is the stub
always answering `(false, nil)`, so registration is attempted; when `RegisterCluster`
fails the Degraded condition is written but the source does not return the error and
still proceeds to set Available=True and return nil.  The third component records
whether `RegisterCluster` was invoked. -/
def handleClusterRegistration (w : World) (argoCDManager : APIManager) :
    World × Option String × Bool :=
  let checkResult := IsClusterRegistered argoCDManager
  match w.register with
  | none => (w, some "register not found", false)
  | some reg0 =>
    let reg1 :=
      match checkResult.2 with
      | some e =>
        setCondOn reg0
          (mkCondition ConditionDegraded "True" "Error"
            ("Unable to verify Cluster Registration: " ++ e)) w.now
      | none => reg0
    if checkResult.1 then
      let reg2 := setCondOn reg1
        (mkCondition ConditionAvailable "True" "Reconciling" "Cluster is Registered") w.now
      ({ w with register := some reg2 }, none, false)
    else
      match RegisterCluster argoCDManager w.kubeconfigValid w.http with
      | some e =>
        let reg2 := setCondOn reg1
          (mkCondition ConditionDegraded "True" "Error"
            ("Unable to register Cluster into ArgoCD: " ++ e)) w.now
        let reg3 := setCondOn reg2
          (mkCondition ConditionAvailable "True" "Reconciling" "Cluster is Registered") w.now
        ({ w with register := some reg3 }, none, true)
      | none =>
        let reg2 := setCondOn reg1
          (mkCondition ConditionAvailable "True" "Reconciling" "Cluster is Registered") w.now
        ({ w with register := some reg2 }, none, true)

/-- Embedding of `handleFinalizer` with the result of the `UnRegisterCluster` call
made explicit as `unregisterResult` (the rest of the function only depends on that
result).  The third component records whether the unregister call was made. -/
def handleFinalizerWith (w : World) (reg : Register) (unregisterResult : Option String) :
    World × Option String × Bool :=
  if containsFinalizer reg registerCRFinalizer then
    let regA := setCondOn reg
      (mkCondition ConditionDegraded "True" "Finalizing"
        "Performing finalizer operations to delete Register") w.now
    let wA := { w with register := some regA }
    match unregisterResult with
    | some e =>
      let regB := setCondOn regA
        (mkCondition ConditionDegraded "Unknown" "Finalizing"
          ("Error to perform required operations: " ++ e)) w.now
      ({ wA with register := some regB }, some e, true)
    | none =>
      let regB := setCondOn regA
        (mkCondition ConditionDegraded "True" "Finalizing"
          "Cluster is unregister successfully accomplished") w.now
      let removal := removeFinalizer regB.finalizers registerCRFinalizer
      if removal.2 then
        let regC := { regB with finalizers := removal.1 }
        ({ wA with register := some regC }, none, true)
      else
        ({ wA with register := some regB }, none, true)
  else
    (w, none, false)

/-- Embedding of `handleFinalizer` proper: `doFinalizerOperations` calls
`UnRegisterCluster` on the manager (the event emission has no store effect). -/
def handleFinalizer (w : World) (reg : Register) (argoCDManager : APIManager) :
    World × Option String × Bool :=
  handleFinalizerWith w reg (UnRegisterCluster argoCDManager)

/-- Continuation of `Reconcile` after `handleIntegrationWithArgoCDAPI` returned: on a
returned error stop with it, otherwise branch on the deletion marker of the (fresh)
Register CR into the finalize path or the registration path. -/
def reconcileWithIntegration (integration : World × Option APIManager × Option String) :
    ReconcileResult :=
  match integration with
  | (w2, _, some e) =>
    { world := w2, err := some e
      registerAttempted := false, unregisterAttempted := false }
  | (w2, none, none) =>
    { world := w2, err := some "nil APIManager"
      registerAttempted := false, unregisterAttempted := false }
  | (w2, some argoCDAPIManager, none) =>
    match w2.register with
    | none =>
      { world := w2, err := some "register not found"
        registerAttempted := false, unregisterAttempted := false }
    | some RegisterCR =>
      if RegisterCR.deletionTimestamp.isSome then
        let fin := handleFinalizer w2 RegisterCR argoCDAPIManager
        { world := fin.1, err := fin.2.1
          registerAttempted := false, unregisterAttempted := fin.2.2 }
      else
        let regn := handleClusterRegistration w2 argoCDAPIManager
        { world := regn.1, err := regn.2.1
          registerAttempted := regn.2.2, unregisterAttempted := false }

/-- Body of `Reconcile` after the initial Cluster fetch: ensure the Register CR
exists (creating it when absent; the Progressing condition lands on the in-memory
object discarded by the re-fetch), build the API manager, then continue. -/
def reconcileBody (w0 : World) (clusterAPI : Cluster) : ReconcileResult :=
  let w :=
    match w0.register with
    | none =>
      { w0 with register := some (createRegisterCR clusterAPI emptyRegister w0.now).1 }
    | some _ => w0
  reconcileWithIntegration (handleIntegrationWithArgoCDAPI w clusterAPI)

/-- Embedding of `RegisterReconciler.Reconcile`.  Fetch the Cluster CR; when it is
gone, stop if the Register CR is also gone, otherwise soft-delete the Register CR by
stamping its deletion timestamp (when not already marked) and continue with the zero
Cluster value, as the source does. -/
def Reconcile (w0 : World) : ReconcileResult :=
  match w0.cluster with
  | none =>
    match w0.register with
    | none =>
      { world := w0, err := none, registerAttempted := false, unregisterAttempted := false }
    | some reg =>
      let w1 :=
        if reg.deletionTimestamp.isNone then
          { w0 with register := some { reg with deletionTimestamp := some w0.now } }
        else w0
      reconcileBody w1 zeroCluster
  | some clusterAPI => reconcileBody w0 clusterAPI

/-- No condition of a given type occurs in a condition list. -/
def noConditionOfType (conds : List Condition) (t : String) : Prop :=
  ∀ d ∈ conds, d.type ≠ t

/-! ## Concrete scenario data (mirroring the repository's test fixtures) -/

/-- A Cluster as in the repository's tests: control-plane host "Host", port 80. -/
def activeCluster : Cluster :=
  { name := "test", ns := "test", host := "Host", port := 80 }

/-- A Register CR for `activeCluster` in the Active state: no deletion marker, no
finalizer, owner reference in place. -/
def activeRegister : Register :=
  { name := "test", ns := "test", deletionTimestamp := none, finalizers := []
    ownerReferences := [{ kind := "Cluster", name := "test" }], conditions := [] }

/-- The kubeconfig secret at the request key. -/
def goodReqSecret : Secret :=
  { data := [("kubeconfig", "kubeconfig-bytes")] }

/-- The ArgoCD credential secret: `admin.password` holds base64("token-test"), as in
the repository's test fixture. -/
def goodArgoSecret : Secret :=
  { data := [("admin.password", "dG9rZW4tdGVzdA==")] }

/-- Active-state world in which the remote register POST answers HTTP 500. -/
def w500 : World :=
  { cluster := some activeCluster, register := some activeRegister
    reqSecret := some goodReqSecret, argoSecret := some goodArgoSecret
    endpointEnv := none, kubeconfigValid := true
    http := .response 500 "500 Internal Server Error", now := 7 }

/-- Active-state world in which the ArgoCD credential secret is absent and the remote
endpoint would answer HTTP 200. -/
def wNoCred : World :=
  { w500 with argoSecret := none, http := .response 200 "200 OK" }

/-- World in which the Cluster exists but no Register CR does, everything healthy. -/
def wAbsent : World :=
  { w500 with register := none, http := .response 200 "200 OK" }

/-- A Register CR marked for deletion and still carrying the finalizer. -/
def finRegister : Register :=
  { activeRegister with deletionTimestamp := some 3, finalizers := [registerCRFinalizer] }

/-- A Register CR marked for deletion with the finalizer already absent. -/
def doneRegister : Register :=
  { activeRegister with deletionTimestamp := some 3 }

/-- World in the Finalizing state (marked, finalizer present, everything healthy). -/
def wFin : World :=
  { w500 with register := some finRegister, http := .response 200 "200 OK" }

/-- World in the Done state (marked, finalizer absent, everything healthy). -/
def wDone : World :=
  { w500 with register := some doneRegister, http := .response 200 "200 OK" }

/-- World in which the Cluster CR has been deleted while the Register CR remains. -/
def wOrphan : World :=
  { w500 with cluster := none, http := .response 200 "200 OK" }

/-- Healthy Active-state world (remote endpoint answers HTTP 200). -/
def wActive200 : World :=
  { w500 with http := .response 200 "200 OK" }

/-- A secret with no fields at all. -/
def emptySecret : Secret :=
  { data := [] }

/-- A concrete APIManager for evaluating the register request shape. -/
def mgrTest : APIManager :=
  { Token := "tok", Server := "Host:80", Name := "test", KubeConfig := "kc"
    Endpoint := "https://argocd-api.example.com" }

/-- An existing Available condition with lastTransitionTime 5. -/
def condX : Condition :=
  { type := "Available", status := "True", reason := "X", message := "m"
    lastTransitionTime := 5, observedGeneration := 0 }

/-- Same type/status/reason as `condX` with a different message (zero time). -/
def condYmsg : Condition :=
  { type := "Available", status := "True", reason := "X", message := "m2"
    lastTransitionTime := 0, observedGeneration := 0 }

/-- Same type as `condX` with a changed status (zero time). -/
def condFalse : Condition :=
  { type := "Available", status := "False", reason := "X", message := "m"
    lastTransitionTime := 0, observedGeneration := 0 }

/-! ## Helper lemmas on the condition model -/

theorem applyCondition_type (n : Condition) (now : Nat) (e : Condition) :
    (applyCondition n now e).type = e.type := by
  unfold applyCondition
  by_cases h : e.status = n.status <;> simp [h]

theorem applyCondition_of_status_eq (n : Condition) (now : Nat) (e : Condition)
    (h : e.status = n.status) :
    applyCondition n now e =
      { e with reason := n.reason, message := n.message
               observedGeneration := n.observedGeneration } := by
  unfold applyCondition
  simp [h]

theorem applyCondition_of_status_ne (n : Condition) (now : Nat) (e : Condition)
    (h : e.status ≠ n.status) (h0 : n.lastTransitionTime = 0) :
    applyCondition n now e =
      { e with status := n.status, lastTransitionTime := now
               reason := n.reason, message := n.message
               observedGeneration := n.observedGeneration } := by
  unfold applyCondition
  simp [h, h0]

theorem findStatusCondition_eq_none (l : List Condition) (t : String) :
    findStatusCondition l t = none ↔ ∀ c ∈ l, c.type ≠ t := by
  induction l with
  | nil => simp [findStatusCondition]
  | cons c rest ih =>
    by_cases h : c.type = t <;> simp [findStatusCondition, h, ih]

theorem findStatusCondition_some (l : List Condition) (t : String) (ex : Condition)
    (h : findStatusCondition l t = some ex) : ex ∈ l ∧ ex.type = t := by
  induction l with
  | nil => simp [findStatusCondition] at h
  | cons c rest ih =>
    by_cases hc : c.type = t
    · rw [findStatusCondition, if_pos hc] at h
      obtain rfl : c = ex := by simpa using h
      exact ⟨List.mem_cons_self _ _, hc⟩
    · rw [findStatusCondition, if_neg hc] at h
      obtain ⟨h1, h2⟩ := ih h
      exact ⟨List.mem_cons_of_mem _ h1, h2⟩

theorem findStatusCondition_updateFirstCondition (l : List Condition) (t : String)
    (f : Condition → Condition) (hf : ∀ c, (f c).type = c.type) :
    findStatusCondition (updateFirstCondition l t f) t =
      (findStatusCondition l t).map f := by
  induction l with
  | nil => rfl
  | cons c rest ih =>
    by_cases h : c.type = t
    · rw [updateFirstCondition, if_pos h, findStatusCondition, if_pos ((hf c).trans h),
        findStatusCondition, if_pos h, Option.map_some']
    · rw [updateFirstCondition, if_neg h, findStatusCondition, if_neg h,
        findStatusCondition, if_neg h, ih]

theorem length_updateFirstCondition (l : List Condition) (t : String)
    (f : Condition → Condition) :
    (updateFirstCondition l t f).length = l.length := by
  induction l with
  | nil => rfl
  | cons c rest ih =>
    by_cases h : c.type = t <;> simp [updateFirstCondition, h, ih]

theorem map_type_updateFirstCondition (l : List Condition) (t : String)
    (f : Condition → Condition) (hf : ∀ c, (f c).type = c.type) :
    (updateFirstCondition l t f).map (fun d => d.type) =
      l.map (fun d => d.type) := by
  induction l with
  | nil => rfl
  | cons c rest ih =>
    by_cases h : c.type = t <;> simp [updateFirstCondition, h, ih, hf c]

theorem mem_updateFirstCondition (l : List Condition) (t : String)
    (f : Condition → Condition) (d : Condition) (hd : d ∈ updateFirstCondition l t f) :
    d ∈ l ∨ ∃ ex, ex ∈ l ∧ ex.type = t ∧ d = f ex := by
  induction l with
  | nil => simp [updateFirstCondition] at hd
  | cons c rest ih =>
    by_cases h : c.type = t
    · rw [updateFirstCondition, if_pos h] at hd
      rcases List.mem_cons.mp hd with h1 | h2
      · exact Or.inr ⟨c, List.mem_cons_self _ _, h, h1⟩
      · exact Or.inl (List.mem_cons_of_mem _ h2)
    · rw [updateFirstCondition, if_neg h] at hd
      rcases List.mem_cons.mp hd with rfl | h2
      · exact Or.inl (List.mem_cons_self _ _)
      · rcases ih h2 with h3 | ⟨ex, hex, hext, hdf⟩
        · exact Or.inl (List.mem_cons_of_mem _ h3)
        · exact Or.inr ⟨ex, List.mem_cons_of_mem _ hex, hext, hdf⟩

theorem length_setStatusCondition_found (conds : List Condition) (c : Condition)
    (now : Nat) (ex : Condition) (hfind : findStatusCondition conds c.type = some ex) :
    (setStatusCondition conds c now).length = conds.length := by
  rw [setStatusCondition, hfind]
  exact length_updateFirstCondition _ _ _

theorem find_setStatusCondition_of_status_eq (conds : List Condition) (c : Condition)
    (now : Nat) (ex : Condition) (hfind : findStatusCondition conds c.type = some ex)
    (hst : ex.status = c.status) :
    findStatusCondition (setStatusCondition conds c now) c.type =
      some { ex with reason := c.reason, message := c.message
                     observedGeneration := c.observedGeneration } := by
  rw [setStatusCondition, hfind,
    findStatusCondition_updateFirstCondition _ _ _ (applyCondition_type c now), hfind,
    Option.map_some', applyCondition_of_status_eq c now ex hst]

theorem find_setStatusCondition_of_status_ne (conds : List Condition) (c : Condition)
    (now : Nat) (ex : Condition) (hfind : findStatusCondition conds c.type = some ex)
    (hst : ex.status ≠ c.status) (h0 : c.lastTransitionTime = 0) :
    findStatusCondition (setStatusCondition conds c now) c.type =
      some { ex with status := c.status, lastTransitionTime := now
                     reason := c.reason, message := c.message
                     observedGeneration := c.observedGeneration } := by
  rw [setStatusCondition, hfind,
    findStatusCondition_updateFirstCondition _ _ _ (applyCondition_type c now), hfind,
    Option.map_some', applyCondition_of_status_ne c now ex hst h0]

theorem setStatusCondition_nodup (conds : List Condition) (c : Condition) (now : Nat)
    (h : (conds.map (fun d => d.type)).Nodup) :
    ((setStatusCondition conds c now).map (fun d => d.type)).Nodup := by
  rw [setStatusCondition]
  cases hfind : findStatusCondition conds c.type with
  | none =>
    have hnotin : c.type ∉ conds.map (fun d => d.type) := by
      rw [List.mem_map]
      rintro ⟨d, hd, hdt⟩
      exact (findStatusCondition_eq_none conds c.type).mp hfind d hd hdt
    have hw : (if c.lastTransitionTime = 0 then
        { c with lastTransitionTime := now } else c).type = c.type := by
      by_cases h0 : c.lastTransitionTime = 0 <;> simp [h0]
    rw [List.map_append]
    refine List.Nodup.append h (by simp) ?_
    intro a ha hb
    have hac : a = c.type := by simpa [hw] using hb
    exact hnotin (hac ▸ ha)
  | some ex =>
    rw [map_type_updateFirstCondition _ _ _ (applyCondition_type c now)]
    exact h

theorem setStatusCondition_mem (conds : List Condition) (c : Condition) (now : Nat) :
    ∃ d ∈ setStatusCondition conds c now,
      d.type = c.type ∧ d.status = c.status ∧ d.reason = c.reason ∧
      d.message = c.message := by
  rw [setStatusCondition]
  cases hfind : findStatusCondition conds c.type with
  | none =>
    refine ⟨_, List.mem_append_right _ (List.mem_singleton.mpr rfl), ?_⟩
    by_cases h0 : c.lastTransitionTime = 0 <;> simp [h0]
  | some ex =>
    have hfind2 := findStatusCondition_updateFirstCondition conds c.type
      (applyCondition c now) (applyCondition_type c now)
    rw [hfind, Option.map_some'] at hfind2
    obtain ⟨hmem, htype⟩ := findStatusCondition_some _ _ _ hfind2
    refine ⟨applyCondition c now ex, hmem, htype, ?_, ?_, ?_⟩
    · by_cases h : ex.status = c.status
      · rw [applyCondition_of_status_eq c now ex h]; exact h
      · unfold applyCondition
        simp [h]
    · by_cases h : ex.status = c.status
      · rw [applyCondition_of_status_eq c now ex h]
      · unfold applyCondition
        simp [h]
    · by_cases h : ex.status = c.status
      · rw [applyCondition_of_status_eq c now ex h]
      · unfold applyCondition
        simp [h]

theorem setStatusCondition_type_stable (conds : List Condition) (c : Condition)
    (now : Nat) (d : Condition) (hd : d ∈ setStatusCondition conds c now) :
    d ∈ conds ∨ d.type = c.type := by
  rw [setStatusCondition] at hd
  cases hfind : findStatusCondition conds c.type with
  | none =>
    rw [hfind] at hd
    rcases List.mem_append.mp hd with h1 | h2
    · exact Or.inl h1
    · right
      have := List.mem_singleton.mp h2
      subst this
      by_cases h0 : c.lastTransitionTime = 0 <;> simp [h0]
  | some ex =>
    rw [hfind] at hd
    rcases mem_updateFirstCondition _ _ _ _ hd with h1 | ⟨e, _, hetype, rfl⟩
    · exact Or.inl h1
    · right
      rw [applyCondition_type]
      exact hetype

/-! ## Step lemmas on the reconciliation helpers -/

theorem noConditionOfType_nil (t : String) : noConditionOfType [] t := by
  intro d hd
  simp at hd

theorem noConditionOfType_set (conds : List Condition) (c : Condition) (now : Nat)
    (t : String) (h : noConditionOfType conds t) (hc : c.type ≠ t) :
    noConditionOfType (setStatusCondition conds c now) t := by
  intro d hd
  rcases setStatusCondition_type_stable conds c now d hd with h1 | h2
  · exact h d h1
  · rw [h2]
    exact hc

theorem setCondOn_fields (reg : Register) (c : Condition) (now : Nat) :
    (setCondOn reg c now).name = reg.name ∧
    (setCondOn reg c now).ns = reg.ns ∧
    (setCondOn reg c now).ownerReferences = reg.ownerReferences ∧
    (setCondOn reg c now).finalizers = reg.finalizers ∧
    (setCondOn reg c now).deletionTimestamp = reg.deletionTimestamp := by
  simp [setCondOn]

theorem handleIntegration_kubeconfigErr (w : World) (c : Cluster) (reg : Register)
    (e : String) (hreg : w.register = some reg)
    (hkc : getClusterKubeConfigFromSecret w = .error e) :
    handleIntegrationWithArgoCDAPI w c =
      ({ w with register := some (setCondOn reg
          (mkCondition ConditionDegraded "True" "Error"
            ("Unable to gathering kubeConfig: " ++ e)) w.now) }, none, some e) := by
  rw [handleIntegrationWithArgoCDAPI, hkc, hreg]

theorem handleIntegration_tokenErr (w : World) (c : Cluster) (reg : Register)
    (kc e : String) (hreg : w.register = some reg)
    (hkc : getClusterKubeConfigFromSecret w = .ok kc)
    (hbt : setBareToken w.argoSecret = .error e) :
    handleIntegrationWithArgoCDAPI w c =
      ({ w with register := some (setCondOn reg
          (mkCondition ConditionDegraded "True" "Error"
            ("Unable to gathering pre-requirements to connect with ArgoCD: " ++ e)) w.now) },
       some { Token := ""
              Server := c.host ++ ":" ++ toString c.port
              Name := c.name
              KubeConfig := kc
              Endpoint := w.endpointEnv.getD defaultArgoAPIEndpoint },
       none) := by
  rw [handleIntegrationWithArgoCDAPI, hkc]
  unfold NewAPIManagerWithCluster
  rw [hbt, hreg]

theorem handleIntegration_ok (w : World) (c : Cluster) (kc tok : String)
    (hkc : getClusterKubeConfigFromSecret w = .ok kc)
    (hbt : setBareToken w.argoSecret = .ok tok) :
    handleIntegrationWithArgoCDAPI w c =
      (w,
       some { Token := tok
              Server := c.host ++ ":" ++ toString c.port
              Name := c.name
              KubeConfig := kc
              Endpoint := w.endpointEnv.getD defaultArgoAPIEndpoint },
       none) := by
  rw [handleIntegrationWithArgoCDAPI, hkc]
  unfold NewAPIManagerWithCluster
  rw [hbt]

theorem handleClusterRegistration_regErr (w : World) (mgr : APIManager) (reg : Register)
    (e : String) (hreg : w.register = some reg)
    (hrc : RegisterCluster mgr w.kubeconfigValid w.http = some e) :
    handleClusterRegistration w mgr =
      ({ w with register := some (setCondOn
          (setCondOn reg
            (mkCondition ConditionDegraded "True" "Error"
              ("Unable to register Cluster into ArgoCD: " ++ e)) w.now)
          (mkCondition ConditionAvailable "True" "Reconciling" "Cluster is Registered")
          w.now) }, none, true) := by
  rw [handleClusterRegistration, hreg]
  simp only [IsClusterRegistered, hrc]
  rfl

theorem handleClusterRegistration_ok (w : World) (mgr : APIManager) (reg : Register)
    (hreg : w.register = some reg)
    (hrc : RegisterCluster mgr w.kubeconfigValid w.http = none) :
    handleClusterRegistration w mgr =
      ({ w with register := some (setCondOn reg
          (mkCondition ConditionAvailable "True" "Reconciling" "Cluster is Registered")
          w.now) }, none, true) := by
  rw [handleClusterRegistration, hreg]
  simp only [IsClusterRegistered, hrc]
  rfl

theorem handleFinalizerWith_absent (w : World) (reg : Register) (r : Option String)
    (h : registerCRFinalizer ∉ reg.finalizers) :
    handleFinalizerWith w reg r = (w, none, false) := by
  rw [handleFinalizerWith, containsFinalizer]
  simp [h]

theorem handleFinalizerWith_unregisterErr (w : World) (reg : Register) (e : String)
    (h : registerCRFinalizer ∈ reg.finalizers) :
    handleFinalizerWith w reg (some e) =
      ({ w with register := some (setCondOn
          (setCondOn reg
            (mkCondition ConditionDegraded "True" "Finalizing"
              "Performing finalizer operations to delete Register") w.now)
          (mkCondition ConditionDegraded "Unknown" "Finalizing"
            ("Error to perform required operations: " ++ e)) w.now) },
       some e, true) := by
  rw [handleFinalizerWith, containsFinalizer]
  simp [h]

theorem handleFinalizerWith_unregisterOk (w : World) (reg : Register)
    (h : registerCRFinalizer ∈ reg.finalizers) :
    ∃ regC,
      handleFinalizerWith w reg none = ({ w with register := some regC }, none, true) ∧
      regC.finalizers = reg.finalizers.filter (fun x => decide (x ≠ registerCRFinalizer)) ∧
      regC.name = reg.name ∧ regC.ns = reg.ns ∧
      regC.deletionTimestamp = reg.deletionTimestamp ∧
      regC.ownerReferences = reg.ownerReferences ∧
      regC.conditions =
        setStatusCondition
          (setStatusCondition reg.conditions
            (mkCondition ConditionDegraded "True" "Finalizing"
              "Performing finalizer operations to delete Register") w.now)
          (mkCondition ConditionDegraded "True" "Finalizing"
            "Cluster is unregister successfully accomplished") w.now := by
  rw [handleFinalizerWith, containsFinalizer]
  have hc : decide (registerCRFinalizer ∈ reg.finalizers) = true := by simpa using h
  simp only [hc, if_true, removeFinalizer, setCondOn, hc]
  exact ⟨_, rfl, rfl, rfl, rfl, rfl, rfl, rfl⟩

/-! ## Composite lemmas on the helpers and on Reconcile -/

theorem handleIntegration_spec (w : World) (c : Cluster) (reg : Register)
    (hreg : w.register = some reg) :
    ∃ reg2,
      (handleIntegrationWithArgoCDAPI w c).1 = { w with register := some reg2 } ∧
      reg2.name = reg.name ∧ reg2.ns = reg.ns ∧
      reg2.ownerReferences = reg.ownerReferences ∧
      reg2.finalizers = reg.finalizers ∧
      reg2.deletionTimestamp = reg.deletionTimestamp ∧
      (∀ t, t ≠ ConditionDegraded → noConditionOfType reg.conditions t →
        noConditionOfType reg2.conditions t) ∧
      ((handleIntegrationWithArgoCDAPI w c).2.2 = none →
        ∃ mgr, (handleIntegrationWithArgoCDAPI w c).2.1 = some mgr) ∧
      (∀ kc, getClusterKubeConfigFromSecret w = .ok kc →
        (handleIntegrationWithArgoCDAPI w c).2.2 = none) := by
  cases hkc : getClusterKubeConfigFromSecret w with
  | error e =>
    rw [handleIntegration_kubeconfigErr w c reg e hreg hkc]
    refine ⟨_, rfl, rfl, rfl, rfl, rfl, rfl, ?_, ?_, ?_⟩
    · intro t ht hno
      exact noConditionOfType_set _ _ _ _ hno (Ne.symm ht)
    · intro h
      simp at h
    · intro kc hkc2
      simp at hkc2
  | ok kc =>
    cases hbt : setBareToken w.argoSecret with
    | error e =>
      rw [handleIntegration_tokenErr w c reg kc e hreg hkc hbt]
      refine ⟨_, rfl, rfl, rfl, rfl, rfl, rfl, ?_, ?_, ?_⟩
      · intro t ht hno
        exact noConditionOfType_set _ _ _ _ hno (Ne.symm ht)
      · intro _
        exact ⟨_, rfl⟩
      · intro kc2 _
        rfl
    | ok tok =>
      rw [handleIntegration_ok w c kc tok hkc hbt]
      refine ⟨reg, ?_, rfl, rfl, rfl, rfl, rfl, ?_, ?_, ?_⟩
      · rw [← hreg]
      · intro t _ hno
        exact hno
      · intro _
        exact ⟨_, rfl⟩
      · intro kc2 _
        rfl

theorem handleClusterRegistration_spec (w : World) (mgr : APIManager) (reg : Register)
    (hreg : w.register = some reg) :
    (handleClusterRegistration w mgr).2.1 = none ∧
    (handleClusterRegistration w mgr).2.2 = true ∧
    ∃ r, (handleClusterRegistration w mgr).1 = { w with register := some r } ∧
      r.name = reg.name ∧ r.ns = reg.ns ∧ r.ownerReferences = reg.ownerReferences ∧
      r.finalizers = reg.finalizers ∧ r.deletionTimestamp = reg.deletionTimestamp ∧
      (∀ t, t ≠ ConditionDegraded → t ≠ ConditionAvailable →
        noConditionOfType reg.conditions t → noConditionOfType r.conditions t) ∧
      ∃ d ∈ r.conditions, d.type = ConditionAvailable ∧ d.status = "True" ∧
        d.reason = "Reconciling" ∧ d.message = "Cluster is Registered" := by
  cases hrc : RegisterCluster mgr w.kubeconfigValid w.http with
  | none =>
    rw [handleClusterRegistration_ok w mgr reg hreg hrc]
    refine ⟨rfl, rfl, _, rfl, rfl, rfl, rfl, rfl, rfl, ?_, ?_⟩
    · intro t _ htA hno
      exact noConditionOfType_set _ _ _ _ hno (Ne.symm htA)
    · exact setStatusCondition_mem reg.conditions
        (mkCondition ConditionAvailable "True" "Reconciling" "Cluster is Registered") w.now
  | some e =>
    rw [handleClusterRegistration_regErr w mgr reg e hreg hrc]
    refine ⟨rfl, rfl, _, rfl, rfl, rfl, rfl, rfl, rfl, ?_, ?_⟩
    · intro t htD htA hno
      exact noConditionOfType_set _ _ _ _
        (noConditionOfType_set _ _ _ _ hno (Ne.symm htD)) (Ne.symm htA)
    · exact setStatusCondition_mem _
        (mkCondition ConditionAvailable "True" "Reconciling" "Cluster is Registered") w.now

theorem reconcileBody_some (w : World) (c : Cluster) (reg : Register)
    (hreg : w.register = some reg) :
    reconcileBody w c = reconcileWithIntegration (handleIntegrationWithArgoCDAPI w c) := by
  unfold reconcileBody
  rw [hreg]

theorem reconcileBody_create (w : World) (c : Cluster) (hreg : w.register = none) :
    reconcileBody w c =
      reconcileBody { w with register := some (generateRegisterCR c) } c := by
  unfold reconcileBody
  rw [hreg]
  rfl

theorem reconcileWithIntegration_err (w2 : World) (mgrOpt : Option APIManager)
    (e : String) :
    reconcileWithIntegration (w2, mgrOpt, some e) =
      { world := w2, err := some e
        registerAttempted := false, unregisterAttempted := false } := by
  cases mgrOpt <;> rfl

theorem reconcileWithIntegration_fin (w2 : World) (mgr : APIManager) (reg : Register)
    (hreg : w2.register = some reg) (hdt : reg.deletionTimestamp.isSome = true) :
    reconcileWithIntegration (w2, some mgr, none) =
      { world := (handleFinalizer w2 reg mgr).1
        err := (handleFinalizer w2 reg mgr).2.1
        registerAttempted := false
        unregisterAttempted := (handleFinalizer w2 reg mgr).2.2 } := by
  simp only [reconcileWithIntegration, hreg, hdt, if_true]

theorem reconcileWithIntegration_reg (w2 : World) (mgr : APIManager) (reg : Register)
    (hreg : w2.register = some reg) (hdt : reg.deletionTimestamp = none) :
    reconcileWithIntegration (w2, some mgr, none) =
      { world := (handleClusterRegistration w2 mgr).1
        err := (handleClusterRegistration w2 mgr).2.1
        registerAttempted := (handleClusterRegistration w2 mgr).2.2
        unregisterAttempted := false } := by
  simp only [reconcileWithIntegration, hreg, hdt, Option.isSome_none, Bool.false_eq_true,
    if_false]

theorem Reconcile_cluster_some (w : World) (c : Cluster) (hcl : w.cluster = some c) :
    Reconcile w = reconcileBody w c := by
  unfold Reconcile
  rw [hcl]

theorem Reconcile_both_absent (w : World) (hcl : w.cluster = none)
    (hreg : w.register = none) :
    Reconcile w =
      { world := w, err := none, registerAttempted := false, unregisterAttempted := false } := by
  unfold Reconcile
  rw [hcl, hreg]

theorem Reconcile_cluster_none_marked (w : World) (reg : Register) (t : Nat)
    (hcl : w.cluster = none) (hreg : w.register = some reg)
    (hdt : reg.deletionTimestamp = some t) :
    Reconcile w = reconcileBody w zeroCluster := by
  unfold Reconcile
  rw [hcl, hreg]
  simp [hdt]

theorem Reconcile_cluster_none_unmarked (w : World) (reg : Register)
    (hcl : w.cluster = none) (hreg : w.register = some reg)
    (hdt : reg.deletionTimestamp = none) :
    Reconcile w = reconcileBody
      { w with register := some { reg with deletionTimestamp := some w.now } }
      zeroCluster := by
  unfold Reconcile
  rw [hcl, hreg]
  simp [hdt]

theorem reconcileBody_spec (w : World) (c : Cluster) (reg : Register)
    (hreg : w.register = some reg) :
    ∃ r, (reconcileBody w c).world.register = some r ∧
      r.name = reg.name ∧ r.ns = reg.ns ∧ r.ownerReferences = reg.ownerReferences ∧
      r.deletionTimestamp = reg.deletionTimestamp ∧
      (registerCRFinalizer ∉ reg.finalizers → registerCRFinalizer ∉ r.finalizers) ∧
      (∀ t, t ≠ ConditionDegraded → t ≠ ConditionAvailable →
        noConditionOfType reg.conditions t → noConditionOfType r.conditions t) ∧
      (registerCRFinalizer ∉ reg.finalizers →
        (reconcileBody w c).unregisterAttempted = false) ∧
      (reg.deletionTimestamp = none →
        ∀ kc, getClusterKubeConfigFromSecret w = .ok kc →
        (reconcileBody w c).registerAttempted = true ∧ (reconcileBody w c).err = none) := by
  obtain ⟨reg2, hW2, hname, hns, hor, hfz, hdt2, hcond, hmgr, hkcnone⟩ :=
    handleIntegration_spec w c reg hreg
  rw [reconcileBody_some w c reg hreg]
  rcases hI : handleIntegrationWithArgoCDAPI w c with ⟨w2, mgrOpt, errOpt⟩
  rw [hI] at hW2 hmgr hkcnone
  simp only at hW2 hmgr hkcnone
  have hw2reg : w2.register = some reg2 := by rw [hW2]
  cases errOpt with
  | some e =>
    rw [reconcileWithIntegration_err]
    refine ⟨reg2, ?_, hname, hns, hor, hdt2, ?_, ?_, ?_, ?_⟩
    · show w2.register = some reg2
      exact hw2reg
    · intro h
      rw [hfz]
      exact h
    · intro t h1 _ hno
      exact hcond t h1 hno
    · intro _
      rfl
    · intro _ kc hkc
      exact absurd (hkcnone kc hkc) (by simp)
  | none =>
    obtain ⟨mgr, hmgrEq⟩ := hmgr rfl
    subst hmgrEq
    cases hdtv : reg2.deletionTimestamp with
    | some t =>
      rw [reconcileWithIntegration_fin w2 mgr reg2 hw2reg (by rw [hdtv]; rfl)]
      rw [handleFinalizer, UnRegisterCluster]
      by_cases hfin : registerCRFinalizer ∈ reg2.finalizers
      · obtain ⟨regC, hfineq, hCfz, hCname, hCns, hCdt, hCor, hCcond⟩ :=
          handleFinalizerWith_unregisterOk w2 reg2 hfin
        rw [hfineq]
        refine ⟨regC, ?_, hCname.trans hname, hCns.trans hns, hCor.trans hor,
          hCdt.trans hdt2, ?_, ?_, ?_, ?_⟩
        · rfl
        · intro _
          rw [hCfz]
          simp
        · intro u h1 _ hno
          rw [hCcond]
          refine noConditionOfType_set _ _ _ _ (noConditionOfType_set _ _ _ _ ?_ (Ne.symm h1))
            (Ne.symm h1)
          exact hcond u h1 hno
        · intro h
          exact absurd (hfz ▸ hfin) h
        · intro hn _ _
          rw [hn] at hdt2
          rw [hdt2] at hdtv
          cases hdtv
      · rw [handleFinalizerWith_absent w2 reg2 none hfin]
        refine ⟨reg2, hw2reg, hname, hns, hor, hdt2, ?_, ?_, ?_, ?_⟩
        · intro _
          rw [hfz] at hfin
          rw [← hfz] at hfin
          exact hfin
        · intro u h1 _ hno
          exact hcond u h1 hno
        · intro _
          rfl
        · intro hn _ _
          rw [hn] at hdt2
          rw [hdt2] at hdtv
          cases hdtv
    | none =>
      rw [reconcileWithIntegration_reg w2 mgr reg2 hw2reg hdtv]
      obtain ⟨hrerr, hratt, r, hrworld, hrname, hrns, hror, hrfz, hrdt, hrcond, hrmem⟩ :=
        handleClusterRegistration_spec w2 mgr reg2 hw2reg
      refine ⟨r, ?_, hrname.trans hname, hrns.trans hns, hror.trans hor,
        hrdt.trans hdt2, ?_, ?_, ?_, ?_⟩
      · show (handleClusterRegistration w2 mgr).1.register = some r
        rw [hrworld]
      · intro h
        rw [hrfz, hfz]
        exact h
      · intro u h1 h2 hno
        exact hrcond u h1 h2 (hcond u h1 hno)
      · intro _
        rfl
      · intro _ _ _
        exact ⟨hratt, hrerr⟩

theorem reconcileBody_finalize_present (w : World) (c : Cluster) (reg : Register)
    (kc tok : String) (hreg : w.register = some reg)
    (hkc : getClusterKubeConfigFromSecret w = .ok kc)
    (hbt : setBareToken w.argoSecret = .ok tok)
    (hdt : reg.deletionTimestamp.isSome = true)
    (hfin : registerCRFinalizer ∈ reg.finalizers) :
    ∃ r, reconcileBody w c =
      { world := { w with register := some r }, err := none
        registerAttempted := false, unregisterAttempted := true } ∧
      registerCRFinalizer ∉ r.finalizers ∧
      r.deletionTimestamp = reg.deletionTimestamp ∧
      ∃ d ∈ r.conditions, d.type = ConditionDegraded ∧ d.reason = "Finalizing" := by
  rw [reconcileBody_some w c reg hreg, handleIntegration_ok w c kc tok hkc hbt,
    reconcileWithIntegration_fin w _ reg hreg hdt, handleFinalizer, UnRegisterCluster]
  obtain ⟨regC, hfineq, hCfz, hCname, hCns, hCdt, hCor, hCcond⟩ :=
    handleFinalizerWith_unregisterOk w reg hfin
  rw [hfineq]
  refine ⟨regC, rfl, ?_, hCdt, ?_⟩
  · rw [hCfz]
    simp
  · rw [hCcond]
    obtain ⟨d, hd, h1, _, h3, _⟩ := setStatusCondition_mem
      (setStatusCondition reg.conditions
        (mkCondition ConditionDegraded "True" "Finalizing"
          "Performing finalizer operations to delete Register") w.now)
      (mkCondition ConditionDegraded "True" "Finalizing"
        "Cluster is unregister successfully accomplished") w.now
    exact ⟨d, hd, h1, h3⟩

theorem reconcileBody_finalize_absent (w : World) (c : Cluster) (reg : Register)
    (kc tok : String) (hreg : w.register = some reg)
    (hkc : getClusterKubeConfigFromSecret w = .ok kc)
    (hbt : setBareToken w.argoSecret = .ok tok)
    (hdt : reg.deletionTimestamp.isSome = true)
    (hfin : registerCRFinalizer ∉ reg.finalizers) :
    reconcileBody w c =
      { world := w, err := none
        registerAttempted := false, unregisterAttempted := false } := by
  rw [reconcileBody_some w c reg hreg, handleIntegration_ok w c kc tok hkc hbt,
    reconcileWithIntegration_fin w _ reg hreg hdt, handleFinalizer, UnRegisterCluster,
    handleFinalizerWith_absent w reg none hfin]

/-! ## Claim theorems -/

/-- C1: in an Active-state reconcile where the register POST answers HTTP 500,
`RegisterCluster` does return an error whose message includes the response status
text; but contrary to the claim (and matching the defect the spec flags in §9),
`Reconcile` returns no error and the Available condition IS set to True on the
RegistrationRecord in that same cycle. -/
theorem C1_register_failure_behavior :
    RegisterCluster
        (NewAPIManagerWithCluster none (some goodArgoSecret) activeCluster
          "kubeconfig-bytes").1
        true (.response 500 "500 Internal Server Error") =
      some "error registering cluster, status: 500 Internal Server Error" ∧
    (Reconcile w500).err = none ∧
    (Reconcile w500).world.register.map (fun r => r.conditions) =
      some
        [{ type := "Degraded", status := "True", reason := "Error"
           message := "Unable to register Cluster into ArgoCD: error registering cluster, status: 500 Internal Server Error"
           lastTransitionTime := 7, observedGeneration := 0 },
         { type := "Available", status := "True", reason := "Reconciling"
           message := "Cluster is Registered", lastTransitionTime := 7
           observedGeneration := 0 }] :=
  ⟨by decide, by decide, by decide⟩

/-- C2: when credential resolution fails (the ArgoCD credential secret is absent),
the engine does set a Degraded condition with a descriptive message; but contrary to
the claim, `handleIntegrationWithArgoCDAPI` swallows the construction error
(`return argoCDAPIManager, nil` in the source), so `Reconcile` returns no error and
the reconcile continues into the register path with an APIManager whose Token is
empty. -/
theorem C2_credential_failure_swallowed :
    setBareToken none = .error "error fetching secret: secret not found" ∧
    (Reconcile wNoCred).err = none ∧
    (Reconcile wNoCred).registerAttempted = true ∧
    (Reconcile wNoCred).world.register.map (fun r => r.conditions) =
      some
        [{ type := "Degraded", status := "True", reason := "Error"
           message := "Unable to gathering pre-requirements to connect with ArgoCD: error fetching secret: secret not found"
           lastTransitionTime := 7, observedGeneration := 0 },
         { type := "Available", status := "True", reason := "Reconciling"
           message := "Cluster is Registered", lastTransitionTime := 7
           observedGeneration := 0 }] :=
  ⟨rfl, by decide, by decide, by decide⟩

/-- C3: the finalize protocol.  (1) A marked Register CR still carrying the finalizer:
Reconcile succeeds, invokes unregister, removes the finalizer and leaves a Degraded
condition with reason "Finalizing"; (2) a marked Register CR without the finalizer:
the whole Reconcile is a no-op success; (3) were the unregister call to fail, the
finalize path would set Degraded with status Unknown carrying the error, return that
error, and keep the finalizer. -/
theorem C3_finalize_protocol :
    (∀ (w : World) (reg : Register) (kc tok : String),
      w.register = some reg →
      getClusterKubeConfigFromSecret w = .ok kc →
      setBareToken w.argoSecret = .ok tok →
      reg.deletionTimestamp.isSome = true →
      registerCRFinalizer ∈ reg.finalizers →
      (Reconcile w).err = none ∧
      (Reconcile w).unregisterAttempted = true ∧
      ∃ r, (Reconcile w).world.register = some r ∧
        registerCRFinalizer ∉ r.finalizers ∧
        r.deletionTimestamp = reg.deletionTimestamp ∧
        ∃ d ∈ r.conditions, d.type = ConditionDegraded ∧ d.reason = "Finalizing") ∧
    (∀ (w : World) (reg : Register) (t : Nat) (kc tok : String),
      w.register = some reg →
      getClusterKubeConfigFromSecret w = .ok kc →
      setBareToken w.argoSecret = .ok tok →
      reg.deletionTimestamp = some t →
      registerCRFinalizer ∉ reg.finalizers →
      Reconcile w =
        { world := w, err := none
          registerAttempted := false, unregisterAttempted := false }) ∧
    (∀ (w : World) (reg : Register) (e : String),
      registerCRFinalizer ∈ reg.finalizers →
      (handleFinalizerWith w reg (some e)).2.1 = some e ∧
      ∃ r, (handleFinalizerWith w reg (some e)).1.register = some r ∧
        r.finalizers = reg.finalizers ∧
        ∃ d ∈ r.conditions, d.type = ConditionDegraded ∧ d.status = "Unknown" ∧
          d.message = "Error to perform required operations: " ++ e) := by
  refine ⟨?_, ?_, ?_⟩
  · intro w reg kc tok hreg hkc hbt hdt hfin
    cases hcl : w.cluster with
    | some c =>
      rw [Reconcile_cluster_some w c hcl]
      obtain ⟨r, heq, hnf, hdtp, hmem⟩ :=
        reconcileBody_finalize_present w c reg kc tok hreg hkc hbt hdt hfin
      rw [heq]
      exact ⟨rfl, rfl, r, rfl, hnf, hdtp, hmem⟩
    | none =>
      rcases hdtv : reg.deletionTimestamp with _ | t0
      · rw [hdtv] at hdt
        simp at hdt
      · rw [Reconcile_cluster_none_marked w reg t0 hcl hreg hdtv]
        obtain ⟨r, heq, hnf, hdtp, hmem⟩ :=
          reconcileBody_finalize_present w zeroCluster reg kc tok hreg hkc hbt hdt hfin
        rw [heq]
        exact ⟨rfl, rfl, r, rfl, hnf, hdtp.trans hdtv, hmem⟩
  · intro w reg t kc tok hreg hkc hbt hdtv hfin
    have hdt : reg.deletionTimestamp.isSome = true := by rw [hdtv]; rfl
    cases hcl : w.cluster with
    | some c =>
      rw [Reconcile_cluster_some w c hcl]
      exact reconcileBody_finalize_absent w c reg kc tok hreg hkc hbt hdt hfin
    | none =>
      rw [Reconcile_cluster_none_marked w reg t hcl hreg hdtv]
      exact reconcileBody_finalize_absent w zeroCluster reg kc tok hreg hkc hbt hdt hfin
  · intro w reg e hfin
    rw [handleFinalizerWith_unregisterErr w reg e hfin]
    refine ⟨rfl, _, rfl, rfl, ?_⟩
    obtain ⟨d, hd, h1, h2, _, h4⟩ := setStatusCondition_mem
      (setStatusCondition reg.conditions
        (mkCondition ConditionDegraded "True" "Finalizing"
          "Performing finalizer operations to delete Register") w.now)
      (mkCondition ConditionDegraded "Unknown" "Finalizing"
        ("Error to perform required operations: " ++ e)) w.now
    exact ⟨d, hd, h1, h2, h4⟩

/-- C3 witness: the protocol at the concrete Finalizing world `wFin` (marked, with
finalizer), the Done world `wDone` (marked, no finalizer), and a concrete failing
unregister result. -/
theorem C3_finalize_protocol_witness :
    ((Reconcile wFin).err = none ∧
     (Reconcile wFin).unregisterAttempted = true ∧
     ∃ r, (Reconcile wFin).world.register = some r ∧
       registerCRFinalizer ∉ r.finalizers ∧
       r.deletionTimestamp = finRegister.deletionTimestamp ∧
       ∃ d ∈ r.conditions, d.type = ConditionDegraded ∧ d.reason = "Finalizing") ∧
    (Reconcile wDone =
      { world := wDone, err := none
        registerAttempted := false, unregisterAttempted := false }) ∧
    ((handleFinalizerWith wDone finRegister (some "boom")).2.1 = some "boom" ∧
     ∃ r, (handleFinalizerWith wDone finRegister (some "boom")).1.register = some r ∧
       r.finalizers = finRegister.finalizers ∧
       ∃ d ∈ r.conditions, d.type = ConditionDegraded ∧ d.status = "Unknown" ∧
         d.message = "Error to perform required operations: " ++ "boom") :=
  ⟨C3_finalize_protocol.1 wFin finRegister "kubeconfig-bytes" "token-test"
      rfl rfl rfl rfl (by decide),
   C3_finalize_protocol.2.1 wDone doneRegister 3 "kubeconfig-bytes" "token-test"
      rfl rfl rfl rfl (by decide),
   C3_finalize_protocol.2.2 wDone finRegister "boom" (by decide)⟩

/-- C4 counterexample: starting from `wAbsent` (Cluster present, no Register CR, all
collaborators healthy) one successful Reconcile creates the record with the owner
reference, but the stored record never carries a Progressing condition: the object
passed to Create has no conditions at all (the Progressing condition is set on a
transient in-memory object) and the final stored record carries only Available. -/
theorem C4_counterexample :
    (Reconcile wAbsent).err = none ∧
    (Reconcile wAbsent).world.register.map (fun r => r.ownerReferences) =
      some [{ kind := "Cluster", name := "test" }] ∧
    (Reconcile wAbsent).world.register.map
        (fun r => r.conditions.map (fun d => d.type)) =
      some [ConditionAvailable] ∧
    (generateRegisterCR activeCluster).conditions = [] :=
  ⟨by decide, by decide, by decide, by decide⟩

/-- C4 (amended): for a WorkloadCluster with no RegistrationRecord, one Reconcile
creates exactly one RegistrationRecord whose identity matches the cluster and which
carries an owner reference to it; the Progressing ("Creating Register") condition is
set only on the in-memory object discarded by the re-fetch, so the stored record
never carries a Progressing condition. -/
theorem C4_create_record (w : World) (c : Cluster)
    (hcl : w.cluster = some c) (hreg : w.register = none) :
    ∃ r, (Reconcile w).world.register = some r ∧
      r.name = c.name ∧ r.ns = c.ns ∧
      r.ownerReferences = [{ kind := "Cluster", name := c.name }] ∧
      noConditionOfType r.conditions ConditionProgressing ∧
      (createRegisterCR c emptyRegister w.now).1.conditions = [] := by
  rw [Reconcile_cluster_some w c hcl, reconcileBody_create w c hreg]
  obtain ⟨r, h1, hname, hns, hor, _, _, hcondb, _, _⟩ :=
    reconcileBody_spec { w with register := some (generateRegisterCR c) } c
      (generateRegisterCR c) rfl
  exact ⟨r, h1, hname, hns, hor,
    hcondb ConditionProgressing (by decide) (by decide) (noConditionOfType_nil _), rfl⟩

/-- C4 witness: the amended creation property at the concrete world `wAbsent`. -/
theorem C4_create_record_witness :
    ∃ r, (Reconcile wAbsent).world.register = some r ∧
      r.name = activeCluster.name ∧ r.ns = activeCluster.ns ∧
      r.ownerReferences = [{ kind := "Cluster", name := activeCluster.name }] ∧
      noConditionOfType r.conditions ConditionProgressing ∧
      (createRegisterCR activeCluster emptyRegister wAbsent.now).1.conditions = [] :=
  C4_create_record wAbsent activeCluster rfl rfl

/-- C5 counterexample: setting a condition that changes only the reason ("X" to "Y",
same type/status/message) at time 9 leaves lastTransitionTime at its old value 5 — the
claim's "setting a condition with a changed status or reason updates
lastTransitionTime" is false for a reason-only change. -/
theorem C5_counterexample :
    setStatusCondition [condX]
      { type := "Available", status := "True", reason := "Y", message := "m"
        lastTransitionTime := 0, observedGeneration := 0 } 9 =
      [{ type := "Available", status := "True", reason := "Y", message := "m"
         lastTransitionTime := 5, observedGeneration := 0 }] ∧
    ("Y" : String) ≠ condX.reason ∧ (5 : Nat) ≠ 9 :=
  ⟨by decide, by decide, by decide⟩

/-- C5 (amended): for every condition list, setting a condition whose type already
exists keeps the list length; with an unchanged status the existing entry keeps its
lastTransitionTime while reason, message and observedGeneration are overwritten (so a
same-{type,status,reason,message} write changes nothing relevant and a message-only
write updates just the message); with a changed status (and zero incoming time)
lastTransitionTime is set to the current time; and at most one condition per type is
preserved.  A reason-only change does NOT update lastTransitionTime. -/
theorem C5_set_condition_semantics :
    (∀ (conds : List Condition) (c : Condition) (now : Nat) (ex : Condition),
      findStatusCondition conds c.type = some ex →
      (setStatusCondition conds c now).length = conds.length) ∧
    (∀ (conds : List Condition) (c : Condition) (now : Nat) (ex : Condition),
      findStatusCondition conds c.type = some ex → ex.status = c.status →
      findStatusCondition (setStatusCondition conds c now) c.type =
        some { ex with reason := c.reason, message := c.message
                       observedGeneration := c.observedGeneration }) ∧
    (∀ (conds : List Condition) (c : Condition) (now : Nat) (ex : Condition),
      findStatusCondition conds c.type = some ex → ex.status ≠ c.status →
      c.lastTransitionTime = 0 →
      findStatusCondition (setStatusCondition conds c now) c.type =
        some { ex with status := c.status, lastTransitionTime := now
                       reason := c.reason, message := c.message
                       observedGeneration := c.observedGeneration }) ∧
    (∀ (conds : List Condition) (c : Condition) (now : Nat),
      ((conds.map fun d => d.type).Nodup) →
      (((setStatusCondition conds c now).map fun d => d.type).Nodup)) :=
  ⟨length_setStatusCondition_found,
   find_setStatusCondition_of_status_eq,
   find_setStatusCondition_of_status_ne,
   setStatusCondition_nodup⟩

/-- C5 witness: the four amended properties evaluated on the concrete conditions
`condX` (existing), `condYmsg` (message-only change) and `condFalse` (status
change). -/
theorem C5_set_condition_semantics_witness :
    (setStatusCondition [condX] condYmsg 9).length = ([condX] : List Condition).length ∧
    findStatusCondition (setStatusCondition [condX] condYmsg 9) condYmsg.type =
      some { condX with reason := condYmsg.reason, message := condYmsg.message
                        observedGeneration := condYmsg.observedGeneration } ∧
    findStatusCondition (setStatusCondition [condX] condFalse 9) condFalse.type =
      some { condX with status := condFalse.status, lastTransitionTime := 9
                        reason := condFalse.reason, message := condFalse.message
                        observedGeneration := condFalse.observedGeneration } ∧
    (((setStatusCondition [condX] condFalse 9).map fun d => d.type).Nodup) :=
  ⟨C5_set_condition_semantics.1 [condX] condYmsg 9 condX (by decide),
   C5_set_condition_semantics.2.1 [condX] condYmsg 9 condX (by decide) (by decide),
   C5_set_condition_semantics.2.2.1 [condX] condFalse 9 condX (by decide) (by decide)
     (by decide),
   C5_set_condition_semantics.2.2.2 [condX] condFalse 9 (by decide)⟩

/-- C6: `RegisterCluster` sends a POST to `{Endpoint}/api/v1/clusters` with exactly
the four top-level body keys {server, name, kubeconfig, config}, with
config.bearerToken equal to the Token, the bearer Authorization and JSON content-type
headers, a 30-second timeout; it succeeds exactly on HTTP 200 and any other status
yields an error carrying the HTTP status text. -/
theorem C6_register_request (a : APIManager) (st : Nat) (txt : String) :
    (registerRequest a).method = "POST" ∧
    (registerRequest a).url = a.Endpoint ++ "/api/v1/clusters" ∧
    (registerRequest a).timeoutSeconds = 30 ∧
    (registerRequest a).headers =
      [("Content-Type", "application/json"), ("Authorization", "Bearer " ++ a.Token)] ∧
    (registerRequest a).body.map Prod.fst = ["server", "name", "kubeconfig", "config"] ∧
    (registerRequest a).body =
      [("server", .str a.Server), ("name", .str a.Name),
       ("kubeconfig", .bytes a.KubeConfig),
       ("config", .obj [("bearerToken", .str a.Token)])] ∧
    RegisterCluster a true (.response 200 txt) = none ∧
    (st ≠ 200 →
      RegisterCluster a true (.response st txt) =
        some ("error registering cluster, status: " ++ txt)) := by
  refine ⟨rfl, rfl, rfl, rfl, rfl, rfl, rfl, ?_⟩
  intro h
  simp [RegisterCluster, h]

/-- C6 witness: a non-200 response (HTTP 500) yields the error carrying the status
text, at the concrete manager `mgrTest`. -/
theorem C6_register_request_witness :
    RegisterCluster mgrTest true (.response 500 "500 Internal Server Error") =
      some ("error registering cluster, status: " ++ "500 Internal Server Error") :=
  (C6_register_request mgrTest 500 "500 Internal Server Error").2.2.2.2.2.2.2 (by decide)

/-- C7: when the WorkloadCluster for a key is gone but a RegistrationRecord remains,
Reconcile leaves the record carrying a deletion marker: an unmarked record gets the
marker stamped with the current time, an already-marked record keeps its original
marker (it is not set again); the record itself is not physically removed. -/
theorem C7_source_deleted (w : World) (reg : Register)
    (hcl : w.cluster = none) (hreg : w.register = some reg) :
    ∃ r, (Reconcile w).world.register = some r ∧
      r.deletionTimestamp = some (reg.deletionTimestamp.getD w.now) ∧
      ∀ t, reg.deletionTimestamp = some t → r.deletionTimestamp = some t := by
  cases hdtv : reg.deletionTimestamp with
  | none =>
    rw [Reconcile_cluster_none_unmarked w reg hcl hreg hdtv]
    obtain ⟨r, h1, _, _, _, hdt, _, _, _, _⟩ :=
      reconcileBody_spec
        { w with register := some { reg with deletionTimestamp := some w.now } }
        zeroCluster { reg with deletionTimestamp := some w.now } rfl
    refine ⟨r, h1, ?_, ?_⟩
    · exact hdt
    · intro t ht
      cases ht
  | some t0 =>
    rw [Reconcile_cluster_none_marked w reg t0 hcl hreg hdtv]
    obtain ⟨r, h1, _, _, _, hdt, _, _, _, _⟩ := reconcileBody_spec w zeroCluster reg hreg
    refine ⟨r, h1, ?_, ?_⟩
    · rw [hdt, hdtv]
      rfl
    · intro t ht
      rw [hdt, hdtv]
      exact ht

/-- C7 witness: the soft-delete property at the concrete orphaned world `wOrphan`
(Cluster deleted, unmarked Register present). -/
theorem C7_source_deleted_witness :
    ∃ r, (Reconcile wOrphan).world.register = some r ∧
      r.deletionTimestamp = some (activeRegister.deletionTimestamp.getD wOrphan.now) ∧
      ∀ t, activeRegister.deletionTimestamp = some t → r.deletionTimestamp = some t :=
  C7_source_deleted wOrphan activeRegister rfl rfl

/-- C9: `IsClusterRegistered` always answers `(false, nil)` and `UnRegisterCluster`
always answers nil (no-op success); consequently every reconcile that takes the
Active path (both objects present, no deletion marker, kubeconfig secret readable)
attempts `RegisterCluster`. -/
theorem C9_stubbed_remote_checks :
    (∀ a, IsClusterRegistered a = (false, none)) ∧
    (∀ a, UnRegisterCluster a = none) ∧
    (∀ (w : World) (c : Cluster) (reg : Register) (kc : String),
      w.cluster = some c → w.register = some reg →
      reg.deletionTimestamp = none → getClusterKubeConfigFromSecret w = .ok kc →
      (Reconcile w).registerAttempted = true) := by
  refine ⟨fun _ => rfl, fun _ => rfl, ?_⟩
  intro w c reg kc hcl hreg hdt hkc
  rw [Reconcile_cluster_some w c hcl]
  obtain ⟨r, _, _, _, _, _, _, _, _, hlast⟩ := reconcileBody_spec w c reg hreg
  exact (hlast hdt kc hkc).1

/-- C9 witness: the register call is attempted on the healthy Active world. -/
theorem C9_stubbed_remote_checks_witness :
    (Reconcile wActive200).registerAttempted = true :=
  C9_stubbed_remote_checks.2.2 wActive200 activeCluster activeRegister
    "kubeconfig-bytes" rfl rfl rfl rfl

/-- C10: the engine never adds the finalizer: generated records carry none, and for
every world whose Register CR (if any) lacks the finalizer, Reconcile never invokes
unregister (the finalizer-present branch is never taken) and the resulting Register
CR still lacks the finalizer — a marked record immediately satisfies the Done state. -/
theorem C10_finalizer_never_added :
    (∀ c, (generateRegisterCR c).finalizers = []) ∧
    (∀ w : World,
      (∀ reg, w.register = some reg → registerCRFinalizer ∉ reg.finalizers) →
      (Reconcile w).unregisterAttempted = false ∧
      ∀ r, (Reconcile w).world.register = some r →
        registerCRFinalizer ∉ r.finalizers) := by
  refine ⟨fun _ => rfl, ?_⟩
  intro w h
  cases hcl : w.cluster with
  | none =>
    cases hreg : w.register with
    | none =>
      rw [Reconcile_both_absent w hcl hreg]
      refine ⟨rfl, ?_⟩
      intro r hr
      have hr2 : w.register = some r := hr
      rw [hreg] at hr2
      cases hr2
    | some reg =>
      have hnf : registerCRFinalizer ∉ reg.finalizers := h reg hreg
      cases hdtv : reg.deletionTimestamp with
      | none =>
        rw [Reconcile_cluster_none_unmarked w reg hcl hreg hdtv]
        obtain ⟨r, h1, _, _, _, _, hfzb, _, hunregb, _⟩ :=
          reconcileBody_spec
            { w with register := some { reg with deletionTimestamp := some w.now } }
            zeroCluster { reg with deletionTimestamp := some w.now } rfl
        refine ⟨hunregb hnf, ?_⟩
        intro r' hr'
        rw [h1] at hr'
        obtain rfl : r = r' := Option.some.inj hr'
        exact hfzb hnf
      | some t0 =>
        rw [Reconcile_cluster_none_marked w reg t0 hcl hreg hdtv]
        obtain ⟨r, h1, _, _, _, _, hfzb, _, hunregb, _⟩ :=
          reconcileBody_spec w zeroCluster reg hreg
        refine ⟨hunregb hnf, ?_⟩
        intro r' hr'
        rw [h1] at hr'
        obtain rfl : r = r' := Option.some.inj hr'
        exact hfzb hnf
  | some c =>
    cases hreg : w.register with
    | none =>
      rw [Reconcile_cluster_some w c hcl, reconcileBody_create w c hreg]
      obtain ⟨r, h1, _, _, _, _, hfzb, _, hunregb, _⟩ :=
        reconcileBody_spec { w with register := some (generateRegisterCR c) } c
          (generateRegisterCR c) rfl
      have hnf : registerCRFinalizer ∉ (generateRegisterCR c).finalizers :=
        List.not_mem_nil _
      refine ⟨hunregb hnf, ?_⟩
      intro r' hr'
      rw [h1] at hr'
      obtain rfl : r = r' := Option.some.inj hr'
      exact hfzb hnf
    | some reg =>
      have hnf : registerCRFinalizer ∉ reg.finalizers := h reg hreg
      rw [Reconcile_cluster_some w c hcl]
      obtain ⟨r, h1, _, _, _, _, hfzb, _, hunregb, _⟩ := reconcileBody_spec w c reg hreg
      refine ⟨hunregb hnf, ?_⟩
      intro r' hr'
      rw [h1] at hr'
      obtain rfl : r = r' := Option.some.inj hr'
      exact hfzb hnf

/-- C10 witness: on the healthy Active world (whose record has no finalizer) the
unregister call is never made and the resulting record still has no finalizer. -/
theorem C10_finalizer_never_added_witness :
    (Reconcile wActive200).unregisterAttempted = false ∧
    ∀ r, (Reconcile wActive200).world.register = some r →
      registerCRFinalizer ∉ r.finalizers :=
  C10_finalizer_never_added.2 wActive200 (fun reg hr => by
    have h2 : activeRegister = reg := Option.some.inj hr
    rw [← h2]
    decide)

/-- C8: the API Manager derives Server as host ++ ":" ++ decimal port (so "Host:80"
for host "Host", port 80) and derives Token by base64-decoding the credential
secret's "admin.password" field (base64("token-test") yields "token-test"); when the
field is absent, construction fails with an error naming the missing field. -/
theorem C8_manager_derivation :
    (∀ (env : Option String) (s : Option Secret) (c : Cluster) (kc : String),
      (NewAPIManagerWithCluster env s c kc).1.Server =
        c.host ++ ":" ++ toString c.port) ∧
    (NewAPIManagerWithCluster none (some goodArgoSecret) activeCluster "kc").1.Server =
      "Host:80" ∧
    setBareToken (some goodArgoSecret) = .ok "token-test" ∧
    (∀ s : Secret, lookupData s.data "admin.password" = none →
      setBareToken (some s) = .error "admin.password not found in secret") := by
  refine ⟨?_, by decide, rfl, ?_⟩
  · intro env s c kc
    unfold NewAPIManagerWithCluster
    cases setBareToken s <;> rfl
  · intro s hmiss
    simp only [setBareToken, hmiss]

/-- C8 witness: a secret with no fields yields the error naming "admin.password". -/
theorem C8_manager_derivation_witness :
    setBareToken (some emptySecret) = .error "admin.password not found in secret" :=
  C8_manager_derivation.2.2.2 emptySecret rfl

end WorkloadOperator
